import Mathlib

/-!
# impact_point_estimator: episode bookkeeping of the node and the impact solver

Shallow embedding of `src/src/impact_point_estimator.cpp` and of the clock part of
`src/include/impact_point_estimator/prediction.hpp`.  The members of `Prediction` that
are declared in the header without a body (the clock operations, `add_timestamp`,
`calculate_impact_point`) follow the specification and say so in their doc comments.

Conventions of the embedding.

* `double` values and `steady_clock` time points are rational numbers (seconds); the
  duration `now - last_point_time_` is their difference.  A tick count `n` of
  nanoseconds satisfies `n / 1e9 > 0.3` in binary64 exactly when `n > 300000000`, so the
  rational comparison `dt > 3/10` decides the same gaps as the source.
* The node's member variables form `State`; the parameters read once in the constructor
  form `Params`.
* Everything the callback hands to another component (publishers, `process_points`) is
  returned as a list of `Effect`s, in program order.
* The collaborators whose bodies are not part of the sources (`Filter`, the estimation
  entry point, the resampler) are supplied per call in `External`, so that every verdict
  and every result can occur at every call.
* The two places where binary64 rounding decides a value, the sums that give the timer
  delays and the conversion `static_cast<int>(delay * 1000)`, are not computed: they are
  operations supplied in `External`.
-/

namespace impact_point_estimator

/-! ## Data model and operations -/

/-- The message type geometry_msgs::msg::Point. -/
structure Point where
  x : Rat
  y : Rat
  z : Rat
deriving DecidableEq, Repr

/-- The pose of a marker; only the position is read. -/
structure Pose where
  position : Point
deriving DecidableEq, Repr

/-- The message type visualization_msgs::msg::Marker, reduced to the field the node reads. -/
structure Marker where
  pose : Pose
deriving DecidableEq, Repr

/-- The struct PredictionResult of prediction.hpp. -/
structure PredictionResult where
  success : Bool
  impact_time : Rat
  x_impact : Rat
  y_impact : Rat
  x0 : Rat
  y0 : Rat
  z0 : Rat
  vx : Rat
  vy : Rat
  vz : Rat
deriving DecidableEq, Repr

/-- The data members of class Prediction. -/
structure Prediction where
  timestamps_ : List Rat
  start_time_ : Rat
  start_time_initialized_ : Bool
deriving DecidableEq, Repr

namespace Prediction

/-- The inline member reset_start_time of prediction.hpp. -/
def reset_start_time (p : Prediction) : Prediction :=
  { p with start_time_initialized_ := false }

/-- Modelled from the spec: Prediction::is_start_time_initialized (declared in
prediction.hpp, body absent); section 4.1 `is_started() -> bool`. -/
def is_start_time_initialized (p : Prediction) : Bool :=
  p.start_time_initialized_

/-- Modelled from the spec: Prediction::set_start_time (declared in prediction.hpp, body
absent); section 4.1 `start(now)` records the episode zero-reference once and is a no-op
if already started. -/
def set_start_time (p : Prediction) (start_time : Rat) : Prediction :=
  if p.start_time_initialized_ then p
  else { p with start_time_ := start_time, start_time_initialized_ := true }

/-- Modelled from the spec: Prediction::calculate_relative_time (declared in
prediction.hpp, body absent); section 4.1 `relative_time(now)` is the elapsed time since
start, zero if not started. -/
def calculate_relative_time (p : Prediction) (current_time : Rat) : Rat :=
  if p.start_time_initialized_ then current_time - p.start_time_ else 0

/-- Modelled from the spec: Prediction::add_timestamp (declared in prediction.hpp, body
absent); section 3, the timestamp sequence is append-only within an episode. -/
def add_timestamp (p : Prediction) (dt : Rat) : Prediction :=
  { p with timestamps_ := p.timestamps_ ++ [dt] }

end Prediction

/-- A wall timer handle: its period in milliseconds and whether cancel() was called. -/
structure Timer where
  period_ms : Int
  canceled : Bool
deriving DecidableEq, Repr

/-- The parameters the constructor reads (lines 19-25). -/
structure Params where
  motor_pos_ : Rat
  offset_time_ : Rat
  curve_points_num_ : Int
  standby_pose_x_ : Rat
  standby_pose_y_ : Rat
  reroad_ : Rat
  target_height_ : Rat
deriving DecidableEq, Repr

/-- The mutable members of ImpactPointEstimator. -/
structure State where
  is_predicting_ : Bool
  last_point_time_ : Rat
  points_ : List Point
  recent_points_ : List Point
  prediction_ : Prediction
  timer_ : Option Timer
  standby_timer_ : Option Timer
  pause_timer_ : Option Timer
deriving DecidableEq, Repr

/-- What one callback hands to the outside, in program order. -/
inductive Effect where
  /-- The call prediction_.process_points(points, n, callback). -/
  | process_points (points : List Point) (n : Nat)
  /-- A marker on /fitted_curve. -/
  | fitted_curve (curve_points : List Point)
  /-- A marker on /fitted_points. -/
  | fitted_points (points : List Point)
  /-- A Pose2D on /target_pose. -/
  | target_pose (x : Rat) (y : Rat) (theta : Rat)
  /-- A Float64 on motor/pos. -/
  | motor_pos (data : Rat)
deriving DecidableEq, Repr

/-- Whether the effect is a call of process_points. -/
def Effect.is_process_points : Effect → Bool
  | Effect.process_points _ _ => true
  | _ => false

/-- Modelled from the spec: the collaborators whose bodies are absent from the sources.
`check_point_validity` is the external point-validity filter of section 1: it sees the
point, the Sample Sequence, the recent points and the target height, and yields its
verdict together with the recent points it leaves behind (the Sample Sequence itself is
append-only within an episode, section 3).  `process_points` is the general path of
section 4.8: it hands exactly one PredictionResult to the result callback before it
returns.  `generate_trajectory_points` is the resampler of section 4.7.
The last two fields are the binary64 operations of the result callback, which the
embedding does not compute: `double_add a b` is the rounded sum of two doubles, and
`delay_to_ms delay` is the value of static_cast<int>(delay * 1000), the product rounded
to binary64 and converted to a 32-bit int. -/
structure External where
  check_point_validity : Point → List Point → List Point → Rat → Bool × List Point
  process_points : List Point → Nat → Prediction → PredictionResult
  generate_trajectory_points : Rat → Rat → Rat → Rat → Rat → Rat → Rat → List Point
  double_add : Rat → Rat → Rat
  delay_to_ms : Rat → Int

/-- The conversion static_cast<size_t>(n) of a signed integer, modulo 2^64. -/
def static_cast_size_t (n : Int) : Nat :=
  (n % 2 ^ 64).toNat

/-- The state the constructor leaves (lines 13-15 and 37), built at clock value t0. -/
def init (t0 : Rat) : State :=
  { is_predicting_ := true
    last_point_time_ := t0
    points_ := []
    recent_points_ := []
    prediction_ := { timestamps_ := [], start_time_ := 0, start_time_initialized_ := false }
    timer_ := none
    standby_timer_ := none
    pause_timer_ := none }

/-- ImpactPointEstimator::clear_data (lines 94-101). -/
def clear_data (s : State) : State :=
  { s with
    points_ := []
    recent_points_ := []
    prediction_ := Prediction.reset_start_time { s.prediction_ with timestamps_ := [] } }

/-- ImpactPointEstimator::publish_motor_pos (lines 257-263). -/
def publish_motor_pos (angle_rad : Rat) : List Effect :=
  [Effect.motor_pos angle_rad]

/-- ImpactPointEstimator::publish_curve_marker (lines 122-141). -/
def publish_curve_marker (curve_points : List Point) : List Effect :=
  [Effect.fitted_curve curve_points]

/-- ImpactPointEstimator::publish_final_pose (lines 172-181). -/
def publish_final_pose (final_point : Point) : List Effect :=
  [Effect.target_pose final_point.x final_point.y 0]

/-- ImpactPointEstimator::publish_points_marker (lines 143-170). -/
def publish_points_marker (s : State) : List Effect :=
  [Effect.fitted_points s.points_]

/-- ImpactPointEstimator::publish_estimated_impact (lines 103-120). -/
def publish_estimated_impact (cfg : Params) (ext : External)
    (impact_time x_impact y_impact x0 y0 z0 vx vy vz : Rat) : List Effect :=
  let trajectory_points := ext.generate_trajectory_points x0 y0 z0 vx vy vz impact_time
  publish_curve_marker trajectory_points
    ++ publish_final_pose { x := x_impact, y := y_impact, z := cfg.target_height_ }

/-- ImpactPointEstimator::schedule_motor_position (lines 183-200). -/
def schedule_motor_position (cfg : Params) (ext : External) (s : State) (delay : Rat) :
    State × List Effect :=
  if delay > 0 then
    ({ s with timer_ := some { period_ms := ext.delay_to_ms delay, canceled := false } }, [])
  else
    (s, publish_motor_pos cfg.motor_pos_)

/-- ImpactPointEstimator::schedule_standby_and_reroad (lines 203-238). -/
def schedule_standby_and_reroad (cfg : Params) (ext : External) (s : State) (delay : Rat) :
    State × List Effect :=
  if delay > 0 then
    ({ s with
       standby_timer_ := some { period_ms := ext.delay_to_ms delay, canceled := false } },
     [])
  else
    (s, [Effect.target_pose cfg.standby_pose_x_ cfg.standby_pose_y_ 0,
         Effect.motor_pos cfg.reroad_])

/-- ImpactPointEstimator::pause_processing (lines 240-246). -/
def pause_processing (s : State) : State :=
  { s with is_predicting_ := false, pause_timer_ := some { period_ms := 1000, canceled := false } }

/-- ImpactPointEstimator::end_pause (lines 248-255). -/
def end_pause (s : State) : State :=
  let s1 : State :=
    match s.timer_ with
    | some t => { s with timer_ := some { t with canceled := true } }
    | none => s
  { s1 with is_predicting_ := true }

/-- The lambda handed to process_points (lines 75-89). -/
def result_callback (cfg : Params) (ext : External) (s : State) (result : PredictionResult) :
    State × List Effect :=
  if result.success then
    let e1 := publish_estimated_impact cfg ext result.impact_time result.x_impact result.y_impact
      result.x0 result.y0 result.z0 result.vx result.vy result.vz
    let r2 := schedule_motor_position cfg ext s
      (ext.double_add result.impact_time cfg.offset_time_)
    let standby_delay := ext.double_add (ext.double_add result.impact_time cfg.offset_time_) 3
    let r3 := schedule_standby_and_reroad cfg ext r2.1 standby_delay
    let e4 := publish_points_marker r3.1
    (pause_processing r3.1, e1 ++ r2.2 ++ r3.2 ++ e4)
  else
    (pause_processing s, [])

/-- The values listener_callback has computed when it reaches line 60. -/
structure Stamped where
  state : State
  dt : Rat
  time_stamp : Rat

/-- Lines 49-58 of listener_callback: read the clock, measure the gap, start the episode
clock if it is not started, compute the relative time. -/
def stamp (s : State) (now : Rat) : Stamped :=
  let dt := now - s.last_point_time_
  let s1 : State := { s with last_point_time_ := now }
  let s2 : State :=
    if !s1.prediction_.is_start_time_initialized then
      { s1 with prediction_ := s1.prediction_.set_start_time now }
    else s1
  { state := s2, dt := dt, time_stamp := s2.prediction_.calculate_relative_time now }

/-- ImpactPointEstimator::listener_callback (lines 40-92). -/
def listener_callback (cfg : Params) (ext : External) (s : State) (msg : Marker) (now : Rat) :
    State × List Effect :=
  if !s.is_predicting_ then (s, [])
  else
    let point := msg.pose.position
    let st := stamp s now
    let s2 := st.state
    if st.dt > 3 / 10 then (clear_data s2, [])
    else
      let verdict := ext.check_point_validity point s2.points_ s2.recent_points_ cfg.target_height_
      let s3 : State := { s2 with recent_points_ := verdict.2 }
      if !verdict.1 then (s3, [])
      else
        let s4 : State := { s3 with points_ := s3.points_ ++ [point] }
        let s5 : State := { s4 with prediction_ := s4.prediction_.add_timestamp st.time_stamp }
        if s5.points_.length ≥ static_cast_size_t cfg.curve_points_num_ then
          let result := ext.process_points s5.points_ s5.points_.length s5.prediction_
          let r := result_callback cfg ext s5 result
          (clear_data r.1, Effect.process_points s5.points_ s5.points_.length :: r.2)
        else (s5, [])

/-- What can happen to the node between two observations. -/
inductive Event where
  /-- A message arrives at clock value now; ext is what the collaborators do in this call. -/
  | listener_callback (ext : External) (msg : Marker) (now : Rat)
  /-- A direct call of clear_data. -/
  | clear_data
  /-- The pause timer fires. -/
  | end_pause

/-- One event applied to the node. -/
def step (cfg : Params) (s : State) : Event → State × List Effect
  | Event.listener_callback ext msg now => listener_callback cfg ext s msg now
  | Event.clear_data => (clear_data s, [])
  | Event.end_pause => (end_pause s, [])

/-- A finite sequence of events applied in order, with everything emitted on the way. -/
def run (cfg : Params) : State → List Event → State × List Effect
  | s, [] => (s, [])
  | s, e :: es =>
    let r1 := step cfg s e
    let r2 := run cfg r1.1 es
    (r2.1, r1.2 ++ r2.2)

/-- The point the filter is asked about and its answer in a call of listener_callback. -/
def verdict_of (cfg : Params) (ext : External) (s : State) (msg : Marker) : Bool × List Point :=
  ext.check_point_validity msg.pose.position s.points_ s.recent_points_ cfg.target_height_

/-- The state at line 72, after an accepted point and its timestamp have been appended. -/
def appended (cfg : Params) (ext : External) (s : State) (msg : Marker) (now : Rat) : State :=
  { (stamp s now).state with
    recent_points_ := (verdict_of cfg ext s msg).2
    points_ := s.points_ ++ [msg.pose.position]
    prediction_ := (stamp s now).state.prediction_.add_timestamp (stamp s now).time_stamp }

/-- History variables, used in statements only.  `arrivals` is the arrival time of the
message that stored each element of points_; `anchor` is the arrival time of the first
message handled (while predicting) since the last reset, if there is one. -/
structure History where
  arrivals : List Rat
  anchor : Option Rat
deriving DecidableEq, Repr

/-- The history after an event, read off the transition the node makes: arrivals follows
points_ (cleared when points_ is emptied, extended when a point is appended), anchor is
dropped by a reset (clear_data, a gap above 0.3 s, a call of process_points) and otherwise
set by the first message that is handled. -/
def track (cfg : Params) (s : State) (h : History) : Event → History
  | Event.clear_data => { arrivals := [], anchor := none }
  | Event.end_pause => h
  | Event.listener_callback ext msg now =>
    let r := listener_callback cfg ext s msg now
    { arrivals :=
        if r.1.points_.length = s.points_.length + 1 then h.arrivals ++ [now]
        else if r.1.points_.length = 0 then [] else h.arrivals
      anchor :=
        if !s.is_predicting_ then h.anchor
        else if now - s.last_point_time_ > 3 / 10 ∨ r.2.any Effect.is_process_points then none
        else match h.anchor with
          | some a => some a
          | none => some now }

/-- The node and its history after a finite sequence of events. -/
def run_history (cfg : Params) : State → History → List Event → State × History
  | s, h, [] => (s, h)
  | s, h, e :: es => run_history cfg (step cfg s e).1 (track cfg s h e) es

/-- The stored timestamps are the stored points' arrival times relative to start_time_, and
a non-empty sequence has a started clock. -/
def Aligned (s : State) (h : History) : Prop :=
  h.arrivals.length = s.points_.length ∧
  s.prediction_.timestamps_ = h.arrivals.map (fun a => a - s.prediction_.start_time_) ∧
  (s.points_ ≠ [] → s.prediction_.start_time_initialized_ = true)

/-- The clock is started exactly when there is an anchor, and then start_time_ is it. -/
def Anchored (s : State) (h : History) : Prop :=
  match h.anchor with
  | some a => s.prediction_.start_time_initialized_ = true ∧ s.prediction_.start_time_ = a
  | none => s.prediction_.start_time_initialized_ = false

/-- A result with success = false and all numeric fields zero. -/
def failed_result : PredictionResult :=
  { success := false, impact_time := 0, x_impact := 0, y_impact := 0,
    x0 := 0, y0 := 0, z0 := 0, vx := 0, vy := 0, vz := 0 }

/-- Collaborators for a call in which the filter rejects the point. -/
def reject_all : External :=
  { check_point_validity := fun _ _ recent_points _ => (false, recent_points)
    process_points := fun _ _ _ => failed_result
    generate_trajectory_points := fun _ _ _ _ _ _ _ => []
    double_add := fun a b => a + b
    delay_to_ms := fun delay => Rat.floor (delay * 1000) }

/-- Collaborators for a call in which the filter accepts the point. -/
def accept_all : External :=
  { check_point_validity := fun _ _ recent_points _ => (true, recent_points)
    process_points := fun _ _ _ => failed_result
    generate_trajectory_points := fun _ _ _ _ _ _ _ => []
    double_add := fun a b => a + b
    delay_to_ms := fun delay => Rat.floor (delay * 1000) }

/-- Parameters with curve_points_num_ = 3. -/
def params3 : Params :=
  { motor_pos_ := 0, offset_time_ := 0, curve_points_num_ := 3, standby_pose_x_ := 0,
    standby_pose_y_ := 0, reroad_ := 0, target_height_ := 0 }

/-- A marker at the origin. -/
def origin_marker : Marker := { pose := { position := { x := 0, y := 0, z := 0 } } }

/-- One message, 0.1 s after construction, rejected by the filter. -/
def trace_rejected : List Event :=
  [Event.listener_callback reject_all origin_marker (1 / 10)]

/-- A rejected message at 0.1 s followed by an accepted one at 0.2 s. -/
def trace_rejected_accepted : List Event :=
  [Event.listener_callback reject_all origin_marker (1 / 10),
   Event.listener_callback accept_all origin_marker (2 / 10)]

/-- Two accepted messages at 0.1 s and 0.2 s. -/
def trace_accepted2 : List Event :=
  [Event.listener_callback accept_all origin_marker (1 / 10),
   Event.listener_callback accept_all origin_marker (2 / 10)]

/-- Three accepted messages at 0.1 s, 0.2 s and 0.3 s. -/
def trace_accepted3 : List Event :=
  [Event.listener_callback accept_all origin_marker (1 / 10),
   Event.listener_callback accept_all origin_marker (2 / 10),
   Event.listener_callback accept_all origin_marker (3 / 10)]

/-- The empty history. -/
def History.empty : History := { arrivals := [], anchor := none }

/-- A second failed result, with other numbers in every numeric field. -/
def failed_result_other : PredictionResult :=
  { success := false, impact_time := 7, x_impact := 1, y_impact := 2,
    x0 := 3, y0 := 4, z0 := 5, vx := 6, vy := 8, vz := 9 }

/-- Parameters with curve_points_num_ = -1. -/
def params_negative : Params := { params3 with curve_points_num_ := -1 }

/-- A marker at (1, 2, 3). -/
def marker_a : Marker := { pose := { position := { x := 1, y := 2, z := 3 } } }

/-- A marker at (4, 5, 6). -/
def marker_b : Marker := { pose := { position := { x := 4, y := 5, z := 6 } } }

/-- A marker at (7, 8, 9). -/
def marker_c : Marker := { pose := { position := { x := 7, y := 8, z := 9 } } }

/-- Marker a accepted at 0.1 s, then marker b accepted at 0.2 s. -/
def trace_a_b : List Event :=
  [Event.listener_callback accept_all marker_a (1 / 10),
   Event.listener_callback accept_all marker_b (2 / 10)]

/-- A node in the middle of an episode: two stored points with their timestamps, two
recent points, the clock started at 0.1 s, the last message seen at 0.2 s. -/
def two_points_state : State :=
  { is_predicting_ := true
    last_point_time_ := 2 / 10
    points_ := [marker_a.pose.position, marker_b.pose.position]
    recent_points_ := [marker_a.pose.position, marker_b.pose.position]
    prediction_ :=
      { timestamps_ := [0, 1 / 10], start_time_ := 1 / 10, start_time_initialized_ := true }
    timer_ := none
    standby_timer_ := none
    pause_timer_ := none }

/-- History variable, used in statements only: the messages whose points are in points_,
oldest first, each as its position and its arrival time.  It is read off the transition
the node makes: emptied when points_ is emptied, extended by the message of the call when
points_ grows by one. -/
def track_samples (cfg : Params) (s : State) (h : List (Point × Rat)) :
    Event → List (Point × Rat)
  | Event.clear_data => []
  | Event.end_pause => h
  | Event.listener_callback ext msg now =>
    let r := listener_callback cfg ext s msg now
    if r.1.points_.length = s.points_.length + 1 then h ++ [(msg.pose.position, now)]
    else if r.1.points_.length = 0 then [] else h

/-- The node and the stored messages after a finite sequence of events. -/
def run_samples (cfg : Params) :
    State → List (Point × Rat) → List Event → State × List (Point × Rat)
  | s, h, [] => (s, h)
  | s, h, e :: es => run_samples cfg (step cfg s e).1 (track_samples cfg s h e) es

/-- The stored points are the positions of the stored messages, in order, the stored
timestamps are their arrival times relative to start_time_, in the same order, and a
non-empty sequence has a started clock. -/
def Paired (s : State) (h : List (Point × Rat)) : Prop :=
  s.points_ = h.map Prod.fst ∧
  s.prediction_.timestamps_ = h.map (fun pa => pa.2 - s.prediction_.start_time_) ∧
  (s.points_ ≠ [] → s.prediction_.start_time_initialized_ = true)

/-! ## The impact solver -/

/-- Modelled from the spec: the gravity constant g of section 4.5, fixed at 9.8 m/s^2. -/
def gravity (K : Type) [LinearOrderedField K] : K := 49 / 5

/-- Modelled from the spec: the height of the ballistic model of section 4.5,
z(t) = z0 + vz t - 0.5 g t^2. -/
def height {K : Type} [LinearOrderedField K] (z0 vz t : K) : K :=
  z0 + vz * t - 1 / 2 * gravity K * (t * t)

/-- Modelled from the spec: the discriminant of 0.5 g t^2 - vz t + (target_z - z0) = 0, scaled by 2 g; the target
height plane in the lidar frame is the z-offset lidar_to_target_z. -/
def discriminant {K : Type} [LinearOrderedField K] (lidar_to_target_z z0 vz : K) : K :=
  vz * vz - 2 * gravity K * (lidar_to_target_z - z0)

/-- The three values calculate_impact_point writes through its reference parameters. -/
structure Impact (K : Type) where
  impact_time : K
  x_impact : K
  y_impact : K
deriving DecidableEq, Repr

/-- Modelled from the spec: Prediction::calculate_impact_point (declared in prediction.hpp
line 38, body absent); section 4.6.  It solves z0 + vz t - 0.5 g t^2 = target_z for the
smallest non-negative root, fails if there is none, and otherwise returns that time and
the horizontal model evaluated there, offset by the lidar-to-target x and y.  The bool
result and the three reference parameters are an Option; the arithmetic is exact, over
any ordered field K, and sqrt is the square root that arithmetic supplies. -/
def calculate_impact_point {K : Type} [LinearOrderedField K] (sqrt : K → K)
    (lidar_to_target_x lidar_to_target_y lidar_to_target_z z0 vz x0 y0 vx vy : K) :
    Option (Impact K) :=
  let d := discriminant lidar_to_target_z z0 vz
  if d < 0 then none
  else
    let t1 := (vz - sqrt d) / gravity K
    let t2 := (vz + sqrt d) / gravity K
    if 0 ≤ t1 then
      some { impact_time := t1, x_impact := x0 + vx * t1 + lidar_to_target_x,
             y_impact := y0 + vy * t1 + lidar_to_target_y }
    else if 0 ≤ t2 then
      some { impact_time := t2, x_impact := x0 + vx * t2 + lidar_to_target_x,
             y_impact := y0 + vy * t2 + lidar_to_target_y }
    else none

/-! ## Lemmas and theorems -/

theorem stamp_points (s : State) (now : Rat) : (stamp s now).state.points_ = s.points_ := by
  unfold stamp; dsimp only; split <;> rfl

theorem stamp_recent_points (s : State) (now : Rat) :
    (stamp s now).state.recent_points_ = s.recent_points_ := by
  unfold stamp; dsimp only; split <;> rfl

theorem stamp_is_predicting (s : State) (now : Rat) :
    (stamp s now).state.is_predicting_ = s.is_predicting_ := by
  unfold stamp; dsimp only; split <;> rfl

theorem stamp_last_point_time (s : State) (now : Rat) :
    (stamp s now).state.last_point_time_ = now := by
  unfold stamp; dsimp only; split <;> rfl

theorem stamp_dt (s : State) (now : Rat) : (stamp s now).dt = now - s.last_point_time_ := rfl

theorem stamp_timestamps (s : State) (now : Rat) :
    (stamp s now).state.prediction_.timestamps_ = s.prediction_.timestamps_ := by
  unfold stamp Prediction.set_start_time Prediction.is_start_time_initialized
  dsimp only
  cases h : s.prediction_.start_time_initialized_ <;> simp [h]

theorem stamp_initialized (s : State) (now : Rat) :
    (stamp s now).state.prediction_.start_time_initialized_ = true := by
  unfold stamp Prediction.set_start_time Prediction.is_start_time_initialized
  dsimp only
  cases h : s.prediction_.start_time_initialized_ <;> simp [h]

theorem stamp_start_time (s : State) (now : Rat) :
    (stamp s now).state.prediction_.start_time_ =
      if s.prediction_.start_time_initialized_ then s.prediction_.start_time_ else now := by
  unfold stamp Prediction.set_start_time Prediction.is_start_time_initialized
  dsimp only
  cases h : s.prediction_.start_time_initialized_ <;> simp [h]

theorem stamp_time_stamp (s : State) (now : Rat) :
    (stamp s now).time_stamp =
      now - (if s.prediction_.start_time_initialized_ then s.prediction_.start_time_ else now) := by
  unfold stamp Prediction.set_start_time Prediction.is_start_time_initialized
    Prediction.calculate_relative_time
  dsimp only
  cases h : s.prediction_.start_time_initialized_ <;> simp [h]

theorem lc_not_predicting (cfg : Params) (ext : External) (s : State) (msg : Marker) (now : Rat)
    (hp : s.is_predicting_ = false) : listener_callback cfg ext s msg now = (s, []) := by
  simp [listener_callback, hp]

theorem lc_gap (cfg : Params) (ext : External) (s : State) (msg : Marker) (now : Rat)
    (hp : s.is_predicting_ = true) (hdt : now - s.last_point_time_ > 3 / 10) :
    listener_callback cfg ext s msg now = (clear_data (stamp s now).state, []) := by
  have h : (stamp s now).dt > 3 / 10 := by rw [stamp_dt]; exact hdt
  simp [listener_callback, hp, h]

theorem lc_reject (cfg : Params) (ext : External) (s : State) (msg : Marker) (now : Rat)
    (hp : s.is_predicting_ = true) (hdt : now - s.last_point_time_ ≤ 3 / 10)
    (hv : (verdict_of cfg ext s msg).1 = false) :
    listener_callback cfg ext s msg now =
      ({ (stamp s now).state with recent_points_ := (verdict_of cfg ext s msg).2 }, []) := by
  have h : ¬ (stamp s now).dt > 3 / 10 := by rw [stamp_dt]; exact not_lt.mpr hdt
  unfold verdict_of at hv
  simp [listener_callback, hp, h, stamp_points, stamp_recent_points, hv, verdict_of]

theorem lc_store (cfg : Params) (ext : External) (s : State) (msg : Marker) (now : Rat)
    (hp : s.is_predicting_ = true) (hdt : now - s.last_point_time_ ≤ 3 / 10)
    (hv : (verdict_of cfg ext s msg).1 = true)
    (hn : s.points_.length + 1 < static_cast_size_t cfg.curve_points_num_) :
    listener_callback cfg ext s msg now = (appended cfg ext s msg now, []) := by
  have h : ¬ (stamp s now).dt > 3 / 10 := by rw [stamp_dt]; exact not_lt.mpr hdt
  unfold verdict_of at hv
  simp [listener_callback, hp, h, stamp_points, stamp_recent_points, hv, verdict_of, appended,
    not_le.mpr hn]

theorem lc_complete (cfg : Params) (ext : External) (s : State) (msg : Marker) (now : Rat)
    (hp : s.is_predicting_ = true) (hdt : now - s.last_point_time_ ≤ 3 / 10)
    (hv : (verdict_of cfg ext s msg).1 = true)
    (hn : static_cast_size_t cfg.curve_points_num_ ≤ s.points_.length + 1) :
    listener_callback cfg ext s msg now =
      (clear_data (result_callback cfg ext (appended cfg ext s msg now)
          (ext.process_points (s.points_ ++ [msg.pose.position]) (s.points_.length + 1)
            (appended cfg ext s msg now).prediction_)).1,
        Effect.process_points (s.points_ ++ [msg.pose.position]) (s.points_.length + 1) ::
          (result_callback cfg ext (appended cfg ext s msg now)
            (ext.process_points (s.points_ ++ [msg.pose.position]) (s.points_.length + 1)
              (appended cfg ext s msg now).prediction_)).2) := by
  have h : ¬ (stamp s now).dt > 3 / 10 := by rw [stamp_dt]; exact not_lt.mpr hdt
  unfold verdict_of at hv
  simp [listener_callback, hp, h, stamp_points, stamp_recent_points, hv, verdict_of, appended, hn]

theorem result_callback_no_process_points (cfg : Params) (ext : External) (s : State)
    (result : PredictionResult) :
    (result_callback cfg ext s result).2.filter Effect.is_process_points = [] := by
  unfold result_callback publish_estimated_impact schedule_motor_position
    schedule_standby_and_reroad publish_points_marker publish_curve_marker publish_final_pose
    publish_motor_pos
  dsimp only
  split
  · split <;> split <;> simp [Effect.is_process_points]
  · rfl

theorem static_cast_size_t_of_nonneg (n : Int) (h0 : 0 ≤ n) (h1 : n < 2 ^ 63) :
    static_cast_size_t n = n.toNat := by
  unfold static_cast_size_t
  rw [Int.emod_eq_of_lt h0 (by omega)]

theorem static_cast_size_t_of_neg (n : Int) (h0 : n < 0) (h1 : -(2 ^ 63) ≤ n) :
    2 ^ 63 ≤ static_cast_size_t n := by
  unfold static_cast_size_t
  omega

/-- C5: the result callback does not read the numeric fields of a failed result: on any
two results with success = false it returns the same state and the same effects, namely
no publication at all, no timer armed, and the state pause_processing leaves (with
is_predicting_ false). -/
theorem result_callback_failed_fields_unused (cfg : Params) (ext : External) (s : State)
    (r1 r2 : PredictionResult) (h1 : r1.success = false) (h2 : r2.success = false) :
    result_callback cfg ext s r1 = result_callback cfg ext s r2 ∧
      result_callback cfg ext s r1 = (pause_processing s, []) ∧
      (result_callback cfg ext s r1).1.is_predicting_ = false ∧
      (result_callback cfg ext s r1).1.timer_ = s.timer_ ∧
      (result_callback cfg ext s r1).1.standby_timer_ = s.standby_timer_ := by
  simp [result_callback, h1, h2, pause_processing]

/-- C7: a message handled while predicting whose gap exceeds 0.3 s resets the episode and
is not recorded, whatever the filter would say; a gap of at most 0.3 s (0.3 included)
causes no gap reset: a rejected message leaves the sequences as they were with the clock
started, an accepted one is appended and either stays stored or is handed to
process_points.  In both cases last_point_time_ becomes now. -/
theorem gap_timeout (cfg : Params) (ext : External) (s : State) (msg : Marker) (now : Rat)
    (hp : s.is_predicting_ = true) :
    (now - s.last_point_time_ > 3 / 10 →
        (listener_callback cfg ext s msg now).1.points_ = [] ∧
        (listener_callback cfg ext s msg now).1.recent_points_ = [] ∧
        (listener_callback cfg ext s msg now).1.prediction_.timestamps_ = [] ∧
        (listener_callback cfg ext s msg now).1.prediction_.is_start_time_initialized = false ∧
        (listener_callback cfg ext s msg now).2 = [] ∧
        (listener_callback cfg ext s msg now).1.last_point_time_ = now ∧
        ∀ ext2 : External,
          listener_callback cfg ext2 s msg now = listener_callback cfg ext s msg now) ∧
    (now - s.last_point_time_ ≤ 3 / 10 →
        (listener_callback cfg ext s msg now).1.last_point_time_ = now ∧
        ((verdict_of cfg ext s msg).1 = false →
          (listener_callback cfg ext s msg now).1.points_ = s.points_ ∧
          (listener_callback cfg ext s msg now).1.prediction_.timestamps_ =
            s.prediction_.timestamps_ ∧
          (listener_callback cfg ext s msg now).1.prediction_.is_start_time_initialized = true ∧
          (listener_callback cfg ext s msg now).2 = []) ∧
        ((verdict_of cfg ext s msg).1 = true →
          ((listener_callback cfg ext s msg now).1.points_ = s.points_ ++ [msg.pose.position] ∧
            (listener_callback cfg ext s msg now).1.prediction_.timestamps_ =
              s.prediction_.timestamps_ ++ [(stamp s now).time_stamp] ∧
            (listener_callback cfg ext s msg now).1.prediction_.is_start_time_initialized = true) ∨
          Effect.process_points (s.points_ ++ [msg.pose.position]) (s.points_.length + 1) ∈
            (listener_callback cfg ext s msg now).2)) := by
  refine ⟨fun hdt => ?_, fun hdt => ⟨?_, fun hv => ?_, fun hv => ?_⟩⟩
  · rw [lc_gap cfg ext s msg now hp hdt]
    refine ⟨?_, ?_, ?_, ?_, ?_, ?_, fun ext2 => lc_gap cfg ext2 s msg now hp hdt⟩ <;>
      simp [clear_data, Prediction.reset_start_time, Prediction.is_start_time_initialized,
        stamp_last_point_time]
  · cases hv : (verdict_of cfg ext s msg).1
    · rw [lc_reject cfg ext s msg now hp hdt hv]
      simp [stamp_last_point_time]
    · rcases Nat.lt_or_ge (s.points_.length + 1) (static_cast_size_t cfg.curve_points_num_)
        with hn | hn
      · rw [lc_store cfg ext s msg now hp hdt hv hn]
        simp [appended, stamp_last_point_time]
      · rw [lc_complete cfg ext s msg now hp hdt hv hn]
        simp [clear_data, result_callback, pause_processing, schedule_motor_position,
          schedule_standby_and_reroad, appended, stamp_last_point_time]
        split
        · split <;> split <;> simp [stamp_last_point_time]
        · simp [stamp_last_point_time]
  · rw [lc_reject cfg ext s msg now hp hdt hv]
    simp [stamp_points, stamp_timestamps, stamp_initialized,
      Prediction.is_start_time_initialized]
  · rcases Nat.lt_or_ge (s.points_.length + 1) (static_cast_size_t cfg.curve_points_num_)
      with hn | hn
    · left
      rw [lc_store cfg ext s msg now hp hdt hv hn]
      simp [appended, Prediction.add_timestamp, stamp_timestamps, stamp_initialized,
        Prediction.is_start_time_initialized]
    · right
      rw [lc_complete cfg ext s msg now hp hdt hv hn]
      simp

theorem clear_data_result (s : State) :
    (clear_data s).points_ = [] ∧ (clear_data s).recent_points_ = [] ∧
      (clear_data s).prediction_.timestamps_ = [] ∧
      (clear_data s).prediction_.start_time_initialized_ = false ∧
      (clear_data s).is_predicting_ = s.is_predicting_ ∧
      (clear_data s).last_point_time_ = s.last_point_time_ := by
  simp [clear_data, Prediction.reset_start_time]

/-- C8, as amended: for an accepted message (predicting, gap at most 0.3 s, filter passes),
with the comparison made as the source makes it, in size_t: when the sequence with the new
point has at least static_cast<size_t>(curve_points_num_) elements process_points is
called exactly once, on the whole sequence, and the episode is reset when the callback
returns; otherwise process_points is not called and the point and its timestamp stay
stored.  For a non-negative curve_points_num_ the size_t value is the parameter itself;
for a negative one it is at least 2^63. -/
theorem completion_of_cycle (cfg : Params) (ext : External) (s : State) (msg : Marker)
    (now : Rat) (hp : s.is_predicting_ = true) (hdt : now - s.last_point_time_ ≤ 3 / 10)
    (hv : (verdict_of cfg ext s msg).1 = true) :
    ((s.points_ ++ [msg.pose.position]).length ≥ static_cast_size_t cfg.curve_points_num_ →
        (listener_callback cfg ext s msg now).2.filter Effect.is_process_points =
          [Effect.process_points (s.points_ ++ [msg.pose.position])
            (s.points_ ++ [msg.pose.position]).length] ∧
        (listener_callback cfg ext s msg now).1.points_ = [] ∧
        (listener_callback cfg ext s msg now).1.recent_points_ = [] ∧
        (listener_callback cfg ext s msg now).1.prediction_.timestamps_ = [] ∧
        (listener_callback cfg ext s msg now).1.prediction_.is_start_time_initialized = false) ∧
    ((s.points_ ++ [msg.pose.position]).length < static_cast_size_t cfg.curve_points_num_ →
        (listener_callback cfg ext s msg now).2 = [] ∧
        (listener_callback cfg ext s msg now).1.points_ = s.points_ ++ [msg.pose.position] ∧
        (listener_callback cfg ext s msg now).1.prediction_.timestamps_ =
          s.prediction_.timestamps_ ++ [(stamp s now).time_stamp]) ∧
    (0 ≤ cfg.curve_points_num_ → cfg.curve_points_num_ < 2 ^ 63 →
        (static_cast_size_t cfg.curve_points_num_ : Int) = cfg.curve_points_num_) ∧
    (cfg.curve_points_num_ < 0 → -(2 ^ 63) ≤ cfg.curve_points_num_ →
        2 ^ 63 ≤ static_cast_size_t cfg.curve_points_num_) := by
  refine ⟨?_, ?_, fun h0 h1 => by
    rw [static_cast_size_t_of_nonneg _ h0 h1]; exact Int.toNat_of_nonneg h0,
    fun h0 h1 => static_cast_size_t_of_neg _ h0 h1⟩
  · intro hn
    have hn2 : static_cast_size_t cfg.curve_points_num_ ≤ s.points_.length + 1 := by
      simpa using hn
    rw [lc_complete cfg ext s msg now hp hdt hv hn2]
    have hc := clear_data_result (result_callback cfg ext (appended cfg ext s msg now)
      (ext.process_points (s.points_ ++ [msg.pose.position]) (s.points_.length + 1)
        (appended cfg ext s msg now).prediction_)).1
    refine ⟨?_, hc.1, hc.2.1, hc.2.2.1, ?_⟩
    · simp [List.filter_cons, Effect.is_process_points, result_callback_no_process_points]
    · simpa [Prediction.is_start_time_initialized] using hc.2.2.2.1
  · intro hn
    have hn2 : s.points_.length + 1 < static_cast_size_t cfg.curve_points_num_ := by
      simpa using hn
    rw [lc_store cfg ext s msg now hp hdt hv hn2]
    simp [appended, Prediction.add_timestamp, stamp_timestamps]

/-- C3: clear_data empties points_, recent_points_ and timestamps_ and clears the started
flag in one call; in the next message handled while predicting the clock is started at
that message's arrival time and the relative time computed for it is 0, which is what is
stored when the message is kept. -/
theorem clear_data_resets_episode (s : State) :
    ((clear_data s).points_ = [] ∧ (clear_data s).recent_points_ = [] ∧
      (clear_data s).prediction_.timestamps_ = [] ∧
      (clear_data s).prediction_.is_start_time_initialized = false) ∧
    (∀ now : Rat,
      (stamp (clear_data s) now).state.prediction_.is_start_time_initialized = true ∧
      (stamp (clear_data s) now).state.prediction_.start_time_ = now ∧
      (stamp (clear_data s) now).time_stamp = 0) ∧
    (∀ (cfg : Params) (ext : External) (msg : Marker) (now : Rat),
      (clear_data s).is_predicting_ = true →
      now - (clear_data s).last_point_time_ ≤ 3 / 10 →
      ((verdict_of cfg ext (clear_data s) msg).1 = false →
        (listener_callback cfg ext (clear_data s) msg now).1.prediction_.start_time_ = now ∧
        (listener_callback cfg ext (clear_data s) msg now).1.prediction_.is_start_time_initialized
          = true) ∧
      ((verdict_of cfg ext (clear_data s) msg).1 = true →
        1 < static_cast_size_t cfg.curve_points_num_ →
        (listener_callback cfg ext (clear_data s) msg now).1.points_ = [msg.pose.position] ∧
        (listener_callback cfg ext (clear_data s) msg now).1.prediction_.timestamps_ = [0] ∧
        (listener_callback cfg ext (clear_data s) msg now).1.prediction_.start_time_ = now)) := by
  have hc := clear_data_result s
  have hst : ∀ now : Rat, (stamp (clear_data s) now).time_stamp = 0 := by
    intro now; rw [stamp_time_stamp, hc.2.2.2.1]; simp
  have hstart : ∀ now : Rat, (stamp (clear_data s) now).state.prediction_.start_time_ = now := by
    intro now; rw [stamp_start_time, hc.2.2.2.1]; simp
  refine ⟨⟨hc.1, hc.2.1, hc.2.2.1, ?_⟩, fun now => ⟨?_, hstart now, hst now⟩, ?_⟩
  · simpa [Prediction.is_start_time_initialized] using hc.2.2.2.1
  · simpa [Prediction.is_start_time_initialized] using stamp_initialized (clear_data s) now
  · intro cfg ext msg now hp hdt
    constructor
    · intro hv
      rw [lc_reject cfg ext (clear_data s) msg now hp hdt hv]
      simp [hstart, stamp_initialized, Prediction.is_start_time_initialized]
    · intro hv hn
      have hn2 : (clear_data s).points_.length + 1 < static_cast_size_t cfg.curve_points_num_ := by
        rw [hc.1]; simpa using hn
      rw [lc_store cfg ext (clear_data s) msg now hp hdt hv hn2]
      simp [appended, Prediction.add_timestamp, stamp_timestamps, hc.1, hc.2.2.1, hst, hstart]

theorem run_history_fst (cfg : Params) (s : State) (h : History) (es : List Event) :
    (run_history cfg s h es).1 = (run cfg s es).1 := by
  induction es generalizing s h with
  | nil => rfl
  | cons e es ih => simp [run_history, run, ih]

theorem aligned_of_same_points (s s1 : State) (h : History) (hI : Aligned s h)
    (hpts : s1.points_ = s.points_) (hts : s1.prediction_.timestamps_ = s.prediction_.timestamps_)
    (hst : s.prediction_.start_time_initialized_ = true →
      s1.prediction_.start_time_ = s.prediction_.start_time_)
    (hfl : s.prediction_.start_time_initialized_ = true →
      s1.prediction_.start_time_initialized_ = true) :
    Aligned s1 h := by
  obtain ⟨h1, h2, h3⟩ := hI
  by_cases hne : s.points_ = []
  · have ha : h.arrivals = [] := by
      apply List.eq_nil_of_length_eq_zero; rw [h1, hne]; rfl
    refine ⟨by rw [hpts]; exact h1, ?_, ?_⟩
    · rw [hts, h2, ha]; rfl
    · intro hc; rw [hpts] at hc; exact absurd hne hc
  · have hf := h3 hne
    refine ⟨by rw [hpts]; exact h1, ?_, fun _ => hfl hf⟩
    rw [hts, h2, hst hf]

theorem aligned_of_cleared (s1 : State) (hpts : s1.points_ = [])
    (hts : s1.prediction_.timestamps_ = []) : Aligned s1 { arrivals := [], anchor := none } := by
  refine ⟨by rw [hpts]; rfl, by rw [hts]; rfl, fun hc => absurd hpts hc⟩

theorem arrivals_same (s : State) (h : History) (n : Nat) (now : Rat)
    (hI : h.arrivals.length = s.points_.length) (hn : n = s.points_.length) :
    (if n = s.points_.length + 1 then h.arrivals ++ [now]
      else if n = 0 then [] else h.arrivals) = h.arrivals := by
  subst hn
  rw [if_neg (by omega)]
  split
  · rename_i h0
    exact (List.eq_nil_of_length_eq_zero (by rw [hI]; exact h0)).symm
  · rfl

/-- The five ways through listener_callback. -/
theorem lc_cases (cfg : Params) (ext : External) (s : State) (msg : Marker) (now : Rat) :
    (s.is_predicting_ = false ∧ listener_callback cfg ext s msg now = (s, [])) ∨
    (s.is_predicting_ = true ∧ now - s.last_point_time_ > 3 / 10 ∧
      listener_callback cfg ext s msg now = (clear_data (stamp s now).state, [])) ∨
    (s.is_predicting_ = true ∧ now - s.last_point_time_ ≤ 3 / 10 ∧
      (verdict_of cfg ext s msg).1 = false ∧
      listener_callback cfg ext s msg now =
        ({ (stamp s now).state with recent_points_ := (verdict_of cfg ext s msg).2 }, [])) ∨
    (s.is_predicting_ = true ∧ now - s.last_point_time_ ≤ 3 / 10 ∧
      (verdict_of cfg ext s msg).1 = true ∧
      s.points_.length + 1 < static_cast_size_t cfg.curve_points_num_ ∧
      listener_callback cfg ext s msg now = (appended cfg ext s msg now, [])) ∨
    (s.is_predicting_ = true ∧ now - s.last_point_time_ ≤ 3 / 10 ∧
      (verdict_of cfg ext s msg).1 = true ∧
      static_cast_size_t cfg.curve_points_num_ ≤ s.points_.length + 1 ∧
      ∃ s1 effs, s1.points_ = [] ∧ s1.prediction_.timestamps_ = [] ∧
        s1.prediction_.start_time_initialized_ = false ∧
        effs.filter Effect.is_process_points = [] ∧
        listener_callback cfg ext s msg now =
          (s1, Effect.process_points (s.points_ ++ [msg.pose.position]) (s.points_.length + 1)
            :: effs)) := by
  cases hp : s.is_predicting_
  · exact Or.inl ⟨rfl, lc_not_predicting cfg ext s msg now hp⟩
  · right
    rcases lt_or_le (3 / 10 : Rat) (now - s.last_point_time_) with hdt | hdt
    · exact Or.inl ⟨rfl, hdt, lc_gap cfg ext s msg now hp hdt⟩
    · right
      cases hv : (verdict_of cfg ext s msg).1
      · exact Or.inl ⟨rfl, hdt, rfl, lc_reject cfg ext s msg now hp hdt hv⟩
      · right
        rcases Nat.lt_or_ge (s.points_.length + 1) (static_cast_size_t cfg.curve_points_num_)
          with hn | hn
        · exact Or.inl ⟨rfl, hdt, rfl, hn, lc_store cfg ext s msg now hp hdt hv hn⟩
        · refine Or.inr ⟨rfl, hdt, rfl, hn, _, _, ?_, ?_, ?_, ?_,
            lc_complete cfg ext s msg now hp hdt hv hn⟩
          · exact (clear_data_result _).1
          · exact (clear_data_result _).2.2.1
          · exact (clear_data_result _).2.2.2.1
          · exact result_callback_no_process_points _ _ _ _

theorem aligned_congr (s : State) (h1 h2 : History) (ha : h1.arrivals = h2.arrivals)
    (hI : Aligned s h1) : Aligned s h2 := by
  unfold Aligned at *
  rw [← ha]; exact hI

theorem aligned_step (cfg : Params) (s : State) (h : History) (e : Event) (hI : Aligned s h) :
    Aligned (step cfg s e).1 (track cfg s h e) := by
  cases e with
  | clear_data =>
    exact aligned_of_cleared _ (clear_data_result s).1 (clear_data_result s).2.2.1
  | end_pause =>
    apply aligned_of_same_points s _ h hI <;>
      (simp only [step, end_pause]; cases s.timer_ <;> simp)
  | listener_callback ext msg now =>
    simp only [step, track]
    rcases lc_cases cfg ext s msg now with
      ⟨_, heq⟩ | ⟨_, _, heq⟩ | ⟨_, _, _, heq⟩ | ⟨_, _, _, hn, heq⟩ | ⟨_, _, _, _, s1, effs, h1, h2, _, _, heq⟩
    · rw [heq]
      apply aligned_congr s h _ (arrivals_same s h _ now hI.1 rfl).symm hI
    · rw [heq]
      apply aligned_congr _ { arrivals := [], anchor := none } _ _
        (aligned_of_cleared _ (clear_data_result _).1 (clear_data_result _).2.2.1)
      simp [(clear_data_result (stamp s now).state).1]
    · rw [heq]
      have hA : Aligned { (stamp s now).state with recent_points_ := (verdict_of cfg ext s msg).2 } h := by
        apply aligned_of_same_points s _ h hI
        · exact stamp_points s now
        · exact stamp_timestamps s now
        · intro hf; simp [stamp_start_time, hf]
        · intro _; exact stamp_initialized s now
      apply aligned_congr _ h _ _ hA
      exact (arrivals_same s h _ now hI.1 (by simp [stamp_points])).symm
    · rw [heq]
      have hlen : (appended cfg ext s msg now).points_.length = s.points_.length + 1 := by
        simp [appended]
      obtain ⟨i1, i2, i3⟩ := hI
      have hts : s.prediction_.timestamps_ =
          h.arrivals.map (fun a => a - (stamp s now).state.prediction_.start_time_) := by
        cases hf : s.prediction_.start_time_initialized_
        · have hne : s.points_ = [] := by
            by_contra hc; have := i3 hc; rw [hf] at this; exact Bool.noConfusion this
          have ha : h.arrivals = [] := by
            apply List.eq_nil_of_length_eq_zero; rw [i1, hne]; rfl
          rw [i2, ha]; rfl
        · rw [i2, stamp_start_time, hf]; rfl
      refine ⟨?_, ?_, ?_⟩
      · simp [hlen, i1]
      · simp only [hlen, if_true]
        simp only [appended, Prediction.add_timestamp, stamp_timestamps, List.map_append,
          List.map_cons, List.map_nil]
        rw [← hts, stamp_time_stamp, stamp_start_time]
      · intro _
        simp [appended, Prediction.add_timestamp, stamp_initialized]
    · rw [heq]
      apply aligned_congr _ { arrivals := [], anchor := none } _ _ (aligned_of_cleared _ h1 h2)
      simp [h1]

theorem aligned_run (cfg : Params) (s : State) (h : History) (es : List Event)
    (hI : Aligned s h) : Aligned (run_history cfg s h es).1 (run_history cfg s h es).2 := by
  induction es generalizing s h with
  | nil => exact hI
  | cons e es ih => exact ih _ _ (aligned_step cfg s h e hI)

theorem anchored_step (cfg : Params) (s : State) (h : History) (e : Event)
    (hA : Anchored s h) : Anchored (step cfg s e).1 (track cfg s h e) := by
  cases e with
  | clear_data =>
    simp only [step, track, Anchored]
    exact (clear_data_result s).2.2.2.1
  | end_pause =>
    unfold Anchored at *
    simp only [step, track, end_pause]
    cases s.timer_ <;> exact hA
  | listener_callback ext msg now =>
    simp only [step, track]
    rcases lc_cases cfg ext s msg now with
      ⟨hp, heq⟩ | ⟨hp, hdt, heq⟩ | ⟨hp, hdt, _, heq⟩ | ⟨hp, hdt, _, _, heq⟩ |
      ⟨hp, hdt, _, _, s1, effs, _, _, h3, _, heq⟩
    · rw [heq]
      unfold Anchored at *
      simpa [hp] using hA
    · rw [heq]
      unfold Anchored
      simp [hp, hdt, (clear_data_result (stamp s now).state).2.2.2.1]
    · rw [heq]
      unfold Anchored at *
      have hdt2 : ¬ (3 / 10 < now - s.last_point_time_) := not_lt.mpr hdt
      simp only [hp, Bool.not_true, Bool.false_eq_true, if_false, hdt2, List.any_nil, or_self]
      cases ha : h.anchor with
      | none =>
        rw [ha] at hA
        simp [stamp_initialized, stamp_start_time, hA]
      | some a =>
        rw [ha] at hA
        simp [stamp_initialized, stamp_start_time, hA.1, hA.2]
    · rw [heq]
      unfold Anchored at *
      have hdt2 : ¬ (3 / 10 < now - s.last_point_time_) := not_lt.mpr hdt
      simp only [hp, Bool.not_true, Bool.false_eq_true, if_false, hdt2, List.any_nil, or_self]
      cases ha : h.anchor with
      | none =>
        rw [ha] at hA
        simp [appended, Prediction.add_timestamp, stamp_initialized, stamp_start_time, hA]
      | some a =>
        rw [ha] at hA
        simp [appended, Prediction.add_timestamp, stamp_initialized, stamp_start_time, hA.1,
          hA.2]
    · rw [heq]
      unfold Anchored
      simp [hp, Effect.is_process_points, h3]

theorem anchored_run (cfg : Params) (s : State) (h : History) (es : List Event)
    (hA : Anchored s h) : Anchored (run_history cfg s h es).1 (run_history cfg s h es).2 := by
  induction es generalizing s h with
  | nil => exact hA
  | cons e es ih => exact ih _ _ (anchored_step cfg s h e hA)

theorem below_step (cfg : Params) (s : State) (e : Event)
    (hs : s.points_.length < static_cast_size_t cfg.curve_points_num_) :
    (step cfg s e).1.points_.length < static_cast_size_t cfg.curve_points_num_ ∧
      ∀ pts k, Effect.process_points pts k ∈ (step cfg s e).2 →
        pts.length = static_cast_size_t cfg.curve_points_num_ ∧
        k = static_cast_size_t cfg.curve_points_num_ := by
  have hpos : 0 < static_cast_size_t cfg.curve_points_num_ := by omega
  cases e with
  | clear_data => simp [step, (clear_data_result s).1, hpos]
  | end_pause =>
    simp only [step, end_pause]
    cases s.timer_ <;> simp [hs]
  | listener_callback ext msg now =>
    simp only [step]
    rcases lc_cases cfg ext s msg now with
      ⟨_, heq⟩ | ⟨_, _, heq⟩ | ⟨_, _, _, heq⟩ | ⟨_, _, _, hn, heq⟩ |
      ⟨_, _, _, hn, s1, effs, h1, _, _, h4, heq⟩
    · rw [heq]; simp [hs]
    · rw [heq]; simp [(clear_data_result (stamp s now).state).1, hpos]
    · rw [heq]; simp [stamp_points, hs]
    · rw [heq]; simp [appended, hn]
    · rw [heq]
      refine ⟨by simp [h1, hpos], ?_⟩
      intro pts k hmem
      rcases List.mem_cons.mp hmem with hhead | htail
      · injection hhead with e1 e2
        subst e1 e2
        simp only [List.length_append, List.length_singleton]
        omega
      · have hf : Effect.process_points pts k ∈ effs.filter Effect.is_process_points :=
          List.mem_filter.mpr ⟨htail, rfl⟩
        rw [h4] at hf
        exact absurd hf (List.not_mem_nil _)

theorem below_run (cfg : Params) (s : State) (es : List Event)
    (hs : s.points_.length < static_cast_size_t cfg.curve_points_num_) :
    (run cfg s es).1.points_.length < static_cast_size_t cfg.curve_points_num_ ∧
      ∀ pts k, Effect.process_points pts k ∈ (run cfg s es).2 →
        pts.length = static_cast_size_t cfg.curve_points_num_ ∧
        k = static_cast_size_t cfg.curve_points_num_ := by
  induction es generalizing s with
  | nil => exact ⟨hs, fun _ _ hm => absurd hm (List.not_mem_nil _)⟩
  | cons e es ih =>
    obtain ⟨b1, b2⟩ := below_step cfg s e hs
    obtain ⟨i1, i2⟩ := ih (step cfg s e).1 b1
    refine ⟨i1, ?_⟩
    intro pts k hm
    simp only [run, List.mem_append] at hm
    rcases hm with hm | hm
    · exact b2 pts k hm
    · exact i2 pts k hm

theorem started_step (cfg : Params) (s : State) (e : Event)
    (hI : s.points_ ≠ [] → s.prediction_.start_time_initialized_ = true) :
    (step cfg s e).1.points_ ≠ [] →
      (step cfg s e).1.prediction_.start_time_initialized_ = true := by
  cases e with
  | clear_data => intro hc; exact absurd (clear_data_result s).1 hc
  | end_pause =>
    simp only [step, end_pause]
    cases s.timer_ <;> exact hI
  | listener_callback ext msg now =>
    simp only [step]
    rcases lc_cases cfg ext s msg now with
      ⟨_, heq⟩ | ⟨_, _, heq⟩ | ⟨_, _, _, heq⟩ | ⟨_, _, _, _, heq⟩ |
      ⟨_, _, _, _, s1, effs, h1, _, _, _, heq⟩
    · rw [heq]; exact hI
    · rw [heq]; intro hc; exact absurd (clear_data_result _).1 hc
    · rw [heq]; intro _; exact stamp_initialized s now
    · rw [heq]; intro _; simp [appended, Prediction.add_timestamp, stamp_initialized]
    · rw [heq]; intro hc; exact absurd h1 hc

theorem started_run (cfg : Params) (s : State) (es : List Event)
    (hI : s.points_ ≠ [] → s.prediction_.start_time_initialized_ = true) :
    (run cfg s es).1.points_ ≠ [] →
      (run cfg s es).1.prediction_.start_time_initialized_ = true := by
  induction es generalizing s with
  | nil => exact hI
  | cons e es ih => exact ih _ (started_step cfg s e hI)

theorem run_samples_fst (cfg : Params) (s : State) (h : List (Point × Rat))
    (es : List Event) : (run_samples cfg s h es).1 = (run cfg s es).1 := by
  induction es generalizing s h with
  | nil => rfl
  | cons e es ih => simp [run_samples, run, ih]

theorem paired_of_same_points (s s1 : State) (h : List (Point × Rat)) (hI : Paired s h)
    (hpts : s1.points_ = s.points_) (hts : s1.prediction_.timestamps_ = s.prediction_.timestamps_)
    (hst : s.prediction_.start_time_initialized_ = true →
      s1.prediction_.start_time_ = s.prediction_.start_time_)
    (hfl : s.prediction_.start_time_initialized_ = true →
      s1.prediction_.start_time_initialized_ = true) :
    Paired s1 h := by
  obtain ⟨h1, h2, h3⟩ := hI
  by_cases hne : s.points_ = []
  · have ha : h = [] := by
      rw [hne] at h1
      exact List.map_eq_nil_iff.mp h1.symm
    refine ⟨by rw [hpts]; exact h1, ?_, ?_⟩
    · rw [hts, h2, ha]; rfl
    · intro hc; rw [hpts] at hc; exact absurd hne hc
  · have hf := h3 hne
    refine ⟨by rw [hpts]; exact h1, ?_, fun _ => hfl hf⟩
    rw [hts, h2, hst hf]

theorem paired_of_cleared (s1 : State) (hpts : s1.points_ = [])
    (hts : s1.prediction_.timestamps_ = []) : Paired s1 [] := by
  refine ⟨by rw [hpts]; rfl, by rw [hts]; rfl, fun hc => absurd hpts hc⟩

theorem samples_same (s : State) (h : List (Point × Rat)) (n : Nat) (pa : Point × Rat)
    (hI : s.points_ = h.map Prod.fst) (hn : n = s.points_.length) :
    (if n = s.points_.length + 1 then h ++ [pa]
      else if n = 0 then [] else h) = h := by
  subst hn
  rw [if_neg (by omega)]
  split
  · rename_i h0
    have hnil : s.points_ = [] := List.eq_nil_of_length_eq_zero h0
    rw [hnil] at hI
    exact (List.map_eq_nil_iff.mp hI.symm).symm
  · rfl

theorem paired_step (cfg : Params) (s : State) (h : List (Point × Rat)) (e : Event)
    (hI : Paired s h) : Paired (step cfg s e).1 (track_samples cfg s h e) := by
  cases e with
  | clear_data =>
    exact paired_of_cleared _ (clear_data_result s).1 (clear_data_result s).2.2.1
  | end_pause =>
    apply paired_of_same_points s _ h hI <;>
      (simp only [step, end_pause]; cases s.timer_ <;> simp)
  | listener_callback ext msg now =>
    simp only [step, track_samples]
    rcases lc_cases cfg ext s msg now with
      ⟨_, heq⟩ | ⟨_, _, heq⟩ | ⟨_, _, _, heq⟩ | ⟨_, _, _, hn, heq⟩ |
      ⟨_, _, _, _, s1, effs, h1, h2, _, _, heq⟩
    · rw [heq, samples_same s h _ _ hI.1 rfl]
      exact hI
    · rw [heq]
      simp only [(clear_data_result (stamp s now).state).1, List.length_nil]
      rw [if_neg (by omega), if_pos trivial]
      exact paired_of_cleared _ (clear_data_result _).1 (clear_data_result _).2.2.1
    · rw [heq]
      have hA : Paired
          { (stamp s now).state with recent_points_ := (verdict_of cfg ext s msg).2 } h := by
        apply paired_of_same_points s _ h hI
        · exact stamp_points s now
        · exact stamp_timestamps s now
        · intro hf; simp [stamp_start_time, hf]
        · intro _; exact stamp_initialized s now
      rw [samples_same s h _ _ hI.1 (by simp [stamp_points])]
      exact hA
    · rw [heq]
      have hlen : (appended cfg ext s msg now).points_.length = s.points_.length + 1 := by
        simp [appended]
      obtain ⟨i1, i2, i3⟩ := hI
      have hts : s.prediction_.timestamps_ =
          h.map (fun pa => pa.2 - (stamp s now).state.prediction_.start_time_) := by
        cases hf : s.prediction_.start_time_initialized_
        · have hne : s.points_ = [] := by
            by_contra hc; have := i3 hc; rw [hf] at this; exact Bool.noConfusion this
          have ha : h = [] := by
            rw [hne] at i1
            exact List.map_eq_nil_iff.mp i1.symm
          rw [i2, ha]; rfl
        · rw [i2, stamp_start_time, hf]; rfl
      rw [if_pos hlen]
      refine ⟨?_, ?_, ?_⟩
      · simp [appended, i1]
      · simp only [appended, Prediction.add_timestamp, stamp_timestamps, List.map_append,
          List.map_cons, List.map_nil]
        rw [← hts, stamp_time_stamp, stamp_start_time]
      · intro _
        simp [appended, Prediction.add_timestamp, stamp_initialized]
    · rw [heq]
      simp only [h1, List.length_nil]
      rw [if_neg (by omega), if_pos trivial]
      exact paired_of_cleared _ h1 h2

theorem paired_run (cfg : Params) (s : State) (h : List (Point × Rat)) (es : List Event)
    (hI : Paired s h) : Paired (run_samples cfg s h es).1 (run_samples cfg s h es).2 := by
  induction es generalizing s h with
  | nil => exact hI
  | cons e es ih => exact ih _ _ (paired_step cfg s h e hI)

/-- C1: from any node state with points_ and timestamps_ empty, after any finite sequence
of listener_callback, clear_data (and end_pause) calls, whatever the messages, arrival
times, filter verdicts and curve_points_num_, the two sequences have the same length, and
index by index they are the position of a stored message and the relative time of the
arrival of that same message. -/
theorem timestamps_index_aligned (cfg : Params) (s0 : State) (es : List Event)
    (hp : s0.points_ = []) (ht : s0.prediction_.timestamps_ = []) :
    (run_samples cfg s0 [] es).1 = (run cfg s0 es).1 ∧
    (run cfg s0 es).1.points_.length = (run cfg s0 es).1.prediction_.timestamps_.length ∧
    (run cfg s0 es).1.points_ = (run_samples cfg s0 [] es).2.map Prod.fst ∧
    (run cfg s0 es).1.prediction_.timestamps_ =
      (run_samples cfg s0 [] es).2.map
        (fun pa => (run cfg s0 es).1.prediction_.calculate_relative_time pa.2) ∧
    (run cfg s0 es).1.points_.zip (run cfg s0 es).1.prediction_.timestamps_ =
      (run_samples cfg s0 [] es).2.map
        (fun pa => (pa.1, (run cfg s0 es).1.prediction_.calculate_relative_time pa.2)) := by
  have h0 : Paired s0 [] := paired_of_cleared s0 hp ht
  obtain ⟨a1, a2, a3⟩ := paired_run cfg s0 [] es h0
  rw [run_samples_fst] at a1 a2 a3
  have hts : (run cfg s0 es).1.prediction_.timestamps_ =
      (run_samples cfg s0 [] es).2.map
        (fun pa => (run cfg s0 es).1.prediction_.calculate_relative_time pa.2) := by
    by_cases hne : (run cfg s0 es).1.points_ = []
    · have ha : (run_samples cfg s0 [] es).2 = [] := by
        rw [hne] at a1
        exact List.map_eq_nil_iff.mp a1.symm
      rw [a2, ha]; rfl
    · rw [a2]
      simp [Prediction.calculate_relative_time, a3 hne]
  refine ⟨run_samples_fst _ _ _ _, ?_, a1, hts, ?_⟩
  · rw [hts, a1, List.length_map, List.length_map]
  · conv_lhs => rw [a1, hts]
    exact List.zip_map' _ _ _

/-- C2, as amended: in every state reachable from a state with points_ empty, a non-empty
points_ has a started clock (so a clock that is not started has an empty points_). -/
theorem nonempty_points_started (cfg : Params) (s0 : State) (es : List Event)
    (hp : s0.points_ = []) (hne : (run cfg s0 es).1.points_ ≠ []) :
    (run cfg s0 es).1.prediction_.is_start_time_initialized = true :=
  started_run cfg s0 es (fun hc => absurd hp hc) hne

/-- C4, as amended: every stored timestamp is the arrival time of its point minus the
arrival time of the first message handled since the last reset, whether or not the filter
accepted that message; the first stored timestamp is 0 when that message is the first
stored point. -/
theorem timestamps_since_first_handled (cfg : Params) (t0 : Rat) (es : List Event) :
    (run_history cfg (init t0) History.empty es).1 = (run cfg (init t0) es).1 ∧
    (run_history cfg (init t0) History.empty es).2.arrivals.length =
      (run cfg (init t0) es).1.points_.length ∧
    ((run cfg (init t0) es).1.points_ ≠ [] →
      (run_history cfg (init t0) History.empty es).2.anchor ≠ none) ∧
    (∀ a, (run_history cfg (init t0) History.empty es).2.anchor = some a →
      (run cfg (init t0) es).1.prediction_.timestamps_ =
        (run_history cfg (init t0) History.empty es).2.arrivals.map (fun t => t - a) ∧
      ((run_history cfg (init t0) History.empty es).2.arrivals.head? = some a →
        (run cfg (init t0) es).1.prediction_.timestamps_.head? = some 0)) := by
  have h0 : Aligned (init t0) History.empty := aligned_of_cleared _ rfl rfl
  have k0 : Anchored (init t0) History.empty := rfl
  obtain ⟨a1, a2, a3⟩ := aligned_run cfg _ _ es h0
  have k := anchored_run cfg _ _ es k0
  rw [run_history_fst] at a1 a2 a3 k
  unfold Anchored at k
  refine ⟨run_history_fst _ _ _ _, a1, ?_, ?_⟩
  · intro hne hnone
    rw [hnone] at k
    have := a3 hne
    rw [k] at this
    exact Bool.noConfusion this
  · intro a ha
    rw [ha] at k
    have hts : (run cfg (init t0) es).1.prediction_.timestamps_ =
        (run_history cfg (init t0) History.empty es).2.arrivals.map (fun t => t - a) := by
      rw [a2, k.2]
    refine ⟨hts, ?_⟩
    intro hhead
    rw [hts, List.head?_map, hhead]
    simp

/-- C9: with curve_points_num_ = N at least 1 and points_ empty at the start, every state
reached has fewer than N points, and every call of process_points receives exactly N
points (and N as its count). -/
theorem process_points_receives_exactly_N (cfg : Params) (s0 : State) (es : List Event)
    (h1 : 1 ≤ cfg.curve_points_num_) (h2 : cfg.curve_points_num_ < 2 ^ 63)
    (hp : s0.points_ = []) :
    ((run cfg s0 es).1.points_.length : Int) < cfg.curve_points_num_ ∧
    ∀ pts k, Effect.process_points pts k ∈ (run cfg s0 es).2 →
      (pts.length : Int) = cfg.curve_points_num_ ∧ (k : Int) = cfg.curve_points_num_ := by
  have hc := static_cast_size_t_of_nonneg cfg.curve_points_num_ (by omega) h2
  have hs : s0.points_.length < static_cast_size_t cfg.curve_points_num_ := by
    rw [hp, hc]; simp only [List.length_nil]; omega
  obtain ⟨b1, b2⟩ := below_run cfg s0 es hs
  rw [hc] at b1
  refine ⟨by omega, ?_⟩
  intro pts k hm
  obtain ⟨c1, c2⟩ := b2 pts k hm
  rw [hc] at c1 c2
  omega

theorem end_pause_result (s : State) :
    (end_pause s).is_predicting_ = true ∧
      (∀ t, s.timer_ = some t → (end_pause s).timer_ = some { t with canceled := true }) ∧
      (s.timer_ = none → (end_pause s).timer_ = none) := by
  unfold end_pause
  cases h : s.timer_ <;> simp [h]

/-! ## Evaluation at concrete inputs -/

theorem eval_trace_rejected :
    (run params3 (init 0) trace_rejected).1.points_ = [] ∧
    (run params3 (init 0) trace_rejected).1.prediction_.start_time_initialized_ = true := by
  simp [trace_rejected, run, step, listener_callback, stamp, init, reject_all, params3,
    Prediction.is_start_time_initialized, Prediction.set_start_time]
  norm_num

theorem eval_trace_rejected_accepted :
    (run_history params3 (init 0) History.empty trace_rejected_accepted).1.points_ =
      [origin_marker.pose.position] ∧
    (run_history params3 (init 0) History.empty trace_rejected_accepted).1.prediction_.timestamps_
      = [1 / 10] ∧
    (run_history params3 (init 0) History.empty trace_rejected_accepted).2.arrivals = [2 / 10] := by
  simp [trace_rejected_accepted, run_history, track, step, listener_callback, stamp, init,
    reject_all, accept_all, params3, History.empty, static_cast_size_t,
    Prediction.is_start_time_initialized, Prediction.set_start_time,
    Prediction.calculate_relative_time, Prediction.add_timestamp]
  norm_num

theorem eval_trace_accepted2 :
    (run_history params3 (init 0) History.empty trace_accepted2).1.points_ =
      [origin_marker.pose.position, origin_marker.pose.position] ∧
    (run_history params3 (init 0) History.empty trace_accepted2).2.arrivals = [1 / 10, 2 / 10] ∧
    (run_history params3 (init 0) History.empty trace_accepted2).2.anchor = some (1 / 10) := by
  simp [trace_accepted2, run_history, track, step, listener_callback, stamp, init,
    reject_all, accept_all, params3, History.empty, static_cast_size_t,
    Prediction.is_start_time_initialized, Prediction.set_start_time,
    Prediction.calculate_relative_time, Prediction.add_timestamp]
  norm_num

/-! ## Instances and counterexamples -/

theorem result_callback_failed_fields_unused_witness :
    result_callback params3 accept_all (init 0) failed_result =
        result_callback params3 accept_all (init 0) failed_result_other ∧
      result_callback params3 accept_all (init 0) failed_result = (pause_processing (init 0), []) ∧
      (result_callback params3 accept_all (init 0) failed_result).1.is_predicting_ = false ∧
      (result_callback params3 accept_all (init 0) failed_result).1.timer_ = (init 0).timer_ ∧
      (result_callback params3 accept_all (init 0) failed_result).1.standby_timer_ =
        (init 0).standby_timer_ :=
  result_callback_failed_fields_unused params3 accept_all (init 0) failed_result
    failed_result_other rfl rfl

theorem gap_timeout_witness :
    (listener_callback params3 accept_all (init 0) origin_marker (1 / 2)).1.points_ = [] ∧
    (listener_callback params3 accept_all (init 0) origin_marker (1 / 2)).1.recent_points_ = [] ∧
    (listener_callback params3 accept_all (init 0) origin_marker (1 / 2)).1.prediction_.timestamps_
      = [] ∧
    (listener_callback params3 accept_all (init 0) origin_marker
      (1 / 2)).1.prediction_.is_start_time_initialized = false ∧
    (listener_callback params3 accept_all (init 0) origin_marker (1 / 2)).2 = [] ∧
    (listener_callback params3 accept_all (init 0) origin_marker (1 / 2)).1.last_point_time_
      = 1 / 2 ∧
    ∀ ext2 : External,
      listener_callback params3 ext2 (init 0) origin_marker (1 / 2) =
        listener_callback params3 accept_all (init 0) origin_marker (1 / 2) :=
  (gap_timeout params3 accept_all (init 0) origin_marker (1 / 2) rfl).1
    (by simp [init]; norm_num)

theorem completion_of_cycle_witness :
    (listener_callback params3 accept_all two_points_state marker_c (4 / 10)).2.filter
        Effect.is_process_points =
      [Effect.process_points
        [marker_a.pose.position, marker_b.pose.position, marker_c.pose.position] 3] ∧
    (listener_callback params3 accept_all two_points_state marker_c (4 / 10)).1.points_ = [] ∧
    (listener_callback params3 accept_all two_points_state marker_c (4 / 10)).1.recent_points_
      = [] ∧
    (listener_callback params3 accept_all two_points_state marker_c
      (4 / 10)).1.prediction_.timestamps_ = [] ∧
    (listener_callback params3 accept_all two_points_state marker_c
      (4 / 10)).1.prediction_.is_start_time_initialized = false :=
  (completion_of_cycle params3 accept_all two_points_state marker_c (4 / 10) rfl
    (by simp [two_points_state]; norm_num) rfl).1 (by decide)

theorem clear_data_resets_episode_witness :
    (two_points_state.points_.length = 2 ∧
      two_points_state.recent_points_.length = 2 ∧
      two_points_state.prediction_.timestamps_ = [0, 1 / 10] ∧
      two_points_state.prediction_.start_time_initialized_ = true ∧
      two_points_state.prediction_.start_time_ = 1 / 10) ∧
    ((clear_data two_points_state).points_ = [] ∧
      (clear_data two_points_state).recent_points_ = [] ∧
      (clear_data two_points_state).prediction_.timestamps_ = [] ∧
      (clear_data two_points_state).prediction_.is_start_time_initialized = false) ∧
    ((listener_callback params3 accept_all (clear_data two_points_state) marker_c
        (4 / 10)).1.points_ = [marker_c.pose.position] ∧
      (listener_callback params3 accept_all (clear_data two_points_state) marker_c
        (4 / 10)).1.prediction_.timestamps_ = [0] ∧
      (listener_callback params3 accept_all (clear_data two_points_state) marker_c
        (4 / 10)).1.prediction_.start_time_ = 4 / 10) :=
  ⟨⟨rfl, rfl, rfl, rfl, rfl⟩, (clear_data_resets_episode two_points_state).1,
    ((clear_data_resets_episode two_points_state).2.2 params3 accept_all marker_c (4 / 10) rfl
      (by simp [clear_data, two_points_state]; norm_num)).2 rfl (by decide)⟩

theorem eval_trace_a_b :
    (run_samples params3 (init 0) [] trace_a_b).2 =
      [(marker_a.pose.position, 1 / 10), (marker_b.pose.position, 2 / 10)] ∧
    (run_samples params3 (init 0) [] trace_a_b).1.prediction_.start_time_initialized_ = true ∧
    (run_samples params3 (init 0) [] trace_a_b).1.prediction_.start_time_ = 1 / 10 := by
  simp [trace_a_b, run_samples, track_samples, step, listener_callback, stamp, init,
    accept_all, params3, static_cast_size_t, marker_a, marker_b,
    Prediction.is_start_time_initialized, Prediction.set_start_time,
    Prediction.calculate_relative_time, Prediction.add_timestamp]
  norm_num

theorem timestamps_index_aligned_witness :
    (run params3 (init 0) trace_a_b).1.points_ =
      [marker_a.pose.position, marker_b.pose.position] ∧
    (run params3 (init 0) trace_a_b).1.prediction_.timestamps_ = [0, 1 / 10] ∧
    (run params3 (init 0) trace_a_b).1.points_.zip
        (run params3 (init 0) trace_a_b).1.prediction_.timestamps_ =
      [(marker_a.pose.position, 0), (marker_b.pose.position, 1 / 10)] := by
  have h := timestamps_index_aligned params3 (init 0) trace_a_b rfl rfl
  have e := eval_trace_a_b
  rw [h.1] at e
  obtain ⟨_, _, h3, h4, h5⟩ := h
  rw [e.1] at h3 h4 h5
  refine ⟨h3, ?_, ?_⟩
  · rw [h4]
    simp [Prediction.calculate_relative_time, e.2.1, e.2.2]
    norm_num
  · rw [h5]
    simp [Prediction.calculate_relative_time, e.2.1, e.2.2]
    norm_num

theorem nonempty_points_started_witness :
    (run params3 (init 0) trace_accepted2).1.points_ ≠ [] ∧
    (run params3 (init 0) trace_accepted2).1.prediction_.is_start_time_initialized = true :=
  have hne : (run params3 (init 0) trace_accepted2).1.points_ ≠ [] := by
    rw [← run_history_fst params3 (init 0) History.empty, eval_trace_accepted2.1]
    simp
  ⟨hne, nonempty_points_started params3 (init 0) trace_accepted2 rfl hne⟩

theorem timestamps_since_first_handled_witness :
    (run params3 (init 0) trace_accepted2).1.prediction_.timestamps_ =
      [1 / 10, 2 / 10].map (fun t => t - 1 / 10) ∧
    (run params3 (init 0) trace_accepted2).1.prediction_.timestamps_.head? = some 0 :=
  have h := (timestamps_since_first_handled params3 0 trace_accepted2).2.2.2 (1 / 10)
    eval_trace_accepted2.2.2
  ⟨by rw [h.1, eval_trace_accepted2.2.1], h.2 (by rw [eval_trace_accepted2.2.1]; rfl)⟩

theorem process_points_receives_exactly_N_witness :
    ((run params3 (init 0) trace_accepted3).1.points_.length : Int) < params3.curve_points_num_ ∧
    ∀ pts k, Effect.process_points pts k ∈ (run params3 (init 0) trace_accepted3).2 →
      (pts.length : Int) = params3.curve_points_num_ ∧ (k : Int) = params3.curve_points_num_ :=
  process_points_receives_exactly_N params3 (init 0) trace_accepted3 (by decide) (by decide) rfl

/-- C2, as stated, fails: after one message that arrives within the gap limit and that the
filter rejects, the clock is started although points_ is empty. -/
theorem started_flag_with_empty_points :
    ¬ ((run params3 (init 0) trace_rejected).1.prediction_.is_start_time_initialized = false ↔
      (run params3 (init 0) trace_rejected).1.points_ = []) := by
  intro h
  have hf := h.mpr eval_trace_rejected.1
  rw [Prediction.is_start_time_initialized, eval_trace_rejected.2] at hf
  exact Bool.noConfusion hf

/-- C4, as stated, fails: after a rejected message at 0.1 s and an accepted one at 0.2 s
the only stored timestamp is 0.1, not 0, although the accepted message is the first
accepted sample of the episode. -/
theorem first_timestamp_not_zero :
    ¬ ((run params3 (init 0) trace_rejected_accepted).1.points_ ≠ [] →
        (run params3 (init 0) trace_rejected_accepted).1.prediction_.timestamps_.head? = some 0) ∧
    (run params3 (init 0) trace_rejected_accepted).1.prediction_.timestamps_ ≠
      (run_history params3 (init 0) History.empty trace_rejected_accepted).2.arrivals.map
        (fun a => a -
          (run_history params3 (init 0) History.empty trace_rejected_accepted).2.arrivals.headD 0)
      := by
  have e := eval_trace_rejected_accepted
  rw [run_history_fst] at e
  refine ⟨fun h => ?_, ?_⟩
  · have h0 := h (by rw [e.1]; simp)
    rw [e.2.1] at h0
    simp at h0
  · rw [e.2.1, e.2.2]
    simp

/-- C8, as stated, fails: with curve_points_num_ = -1 an accepted message makes
points_.size() = 1, which is at least -1, yet process_points is not called and the episode
is not reset: the point stays stored. -/
theorem negative_threshold_never_completes :
    ((init 0).is_predicting_ = true ∧
      (1 / 10 : Rat) - (init 0).last_point_time_ ≤ 3 / 10 ∧
      (verdict_of params_negative accept_all (init 0) marker_a).1 = true ∧
      (((init 0).points_ ++ [marker_a.pose.position]).length : Int) ≥
        params_negative.curve_points_num_) ∧
    (listener_callback params_negative accept_all (init 0) marker_a (1 / 10)).2 = [] ∧
    (listener_callback params_negative accept_all (init 0) marker_a (1 / 10)).1.points_ =
      [marker_a.pose.position] ∧
    ¬ ((((init 0).points_ ++ [marker_a.pose.position]).length : Int) ≥
          params_negative.curve_points_num_ →
        (listener_callback params_negative accept_all (init 0) marker_a (1 / 10)).2.filter
            Effect.is_process_points =
          [Effect.process_points ((init 0).points_ ++ [marker_a.pose.position])
            ((init 0).points_ ++ [marker_a.pose.position]).length] ∧
        (listener_callback params_negative accept_all (init 0) marker_a (1 / 10)).1.points_
          = []) := by
  have hdt : (1 / 10 : Rat) - (init 0).last_point_time_ ≤ 3 / 10 := by
    simp [init]; norm_num
  have hge : (((init 0).points_ ++ [marker_a.pose.position]).length : Int) ≥
      params_negative.curve_points_num_ := by decide
  have heq := lc_store params_negative accept_all (init 0) marker_a (1 / 10) rfl hdt rfl
    (by decide)
  have hpts : (listener_callback params_negative accept_all (init 0) marker_a
      (1 / 10)).1.points_ = [marker_a.pose.position] := by
    rw [heq]; rfl
  refine ⟨⟨rfl, hdt, rfl, hge⟩, by rw [heq], hpts, ?_⟩
  intro h
  have h2 := (h hge).2
  rw [hpts] at h2
  exact List.noConfusion h2

/-! ## The impact solver -/

theorem gravity_pos {K : Type} [LinearOrderedField K] : (0 : K) < gravity K := by unfold gravity; norm_num

theorem height_eq_iff {K : Type} [LinearOrderedField K] (lz z0 vz t : K) :
    height z0 vz t = lz ↔ (gravity K * t - vz) ^ 2 = discriminant lz z0 vz := by
  unfold height discriminant gravity
  constructor
  · intro h; linear_combination (-(2 * (49 / 5 : K))) * h
  · intro h; linear_combination (-(5 / 98 : K)) * h

theorem height_eq_cases {K : Type} [LinearOrderedField K] (lz z0 vz t r : K) (hr : r * r = discriminant lz z0 vz) :
    height z0 vz t = lz ↔ t = (vz - r) / gravity K ∨ t = (vz + r) / gravity K := by
  have hg : (gravity K) ≠ 0 := ne_of_gt gravity_pos
  rw [height_eq_iff, ← hr]
  constructor
  · intro h
    have h2 : (gravity K * t - vz - r) * (gravity K * t - vz + r) = 0 := by
      linear_combination h
    rcases mul_eq_zero.mp h2 with h3 | h3
    · right; field_simp; linear_combination h3
    · left; field_simp; linear_combination h3
  · rintro (h | h)
    · subst h; field_simp; ring
    · subst h; field_simp; ring

/-- C6: calculate_impact_point succeeds exactly when the height equation has a
non-negative root; then impact_time is the smallest non-negative root and x_impact,
y_impact are the horizontal model at that time plus the lidar-to-target x and y; it fails
(no time at all, so no negative one) when there is no non-negative root, for instance
when z0 is below the target height and vz is at most 0. -/
theorem calculate_impact_point_spec {K : Type} [LinearOrderedField K] (sqrt : K → K)
    (lidar_to_target_x lidar_to_target_y lidar_to_target_z z0 vz x0 y0 vx vy : K)
    (hs : 0 ≤ discriminant lidar_to_target_z z0 vz →
      0 ≤ sqrt (discriminant lidar_to_target_z z0 vz) ∧
      sqrt (discriminant lidar_to_target_z z0 vz) * sqrt (discriminant lidar_to_target_z z0 vz) =
        discriminant lidar_to_target_z z0 vz) :
    (calculate_impact_point sqrt lidar_to_target_x lidar_to_target_y lidar_to_target_z
        z0 vz x0 y0 vx vy = none ↔
      ¬ ∃ t, 0 ≤ t ∧ height z0 vz t = lidar_to_target_z) ∧
    (∀ r, calculate_impact_point sqrt lidar_to_target_x lidar_to_target_y lidar_to_target_z
        z0 vz x0 y0 vx vy = some r →
      0 ≤ r.impact_time ∧ height z0 vz r.impact_time = lidar_to_target_z ∧
      (∀ t, 0 ≤ t → height z0 vz t = lidar_to_target_z → r.impact_time ≤ t) ∧
      r.x_impact = x0 + vx * r.impact_time + lidar_to_target_x ∧
      r.y_impact = y0 + vy * r.impact_time + lidar_to_target_y) ∧
    (z0 < lidar_to_target_z → vz ≤ 0 →
      calculate_impact_point sqrt lidar_to_target_x lidar_to_target_y lidar_to_target_z
        z0 vz x0 y0 vx vy = none) := by
  have hg : (0 : K) < gravity K := gravity_pos
  have key : (calculate_impact_point sqrt lidar_to_target_x lidar_to_target_y lidar_to_target_z
        z0 vz x0 y0 vx vy = none ↔
      ¬ ∃ t, 0 ≤ t ∧ height z0 vz t = lidar_to_target_z) ∧
    (∀ r, calculate_impact_point sqrt lidar_to_target_x lidar_to_target_y lidar_to_target_z
        z0 vz x0 y0 vx vy = some r →
      0 ≤ r.impact_time ∧ height z0 vz r.impact_time = lidar_to_target_z ∧
      (∀ t, 0 ≤ t → height z0 vz t = lidar_to_target_z → r.impact_time ≤ t) ∧
      r.x_impact = x0 + vx * r.impact_time + lidar_to_target_x ∧
      r.y_impact = y0 + vy * r.impact_time + lidar_to_target_y) := by
    unfold calculate_impact_point
    dsimp only
    by_cases hd : discriminant lidar_to_target_z z0 vz < 0
    · rw [if_pos hd]
      refine ⟨⟨fun _ => ?_, fun _ => rfl⟩, fun r hr => by cases hr⟩
      rintro ⟨t, _, ht⟩
      rw [height_eq_iff] at ht
      have := sq_nonneg (gravity K * t - vz)
      rw [ht] at this
      exact absurd hd (not_lt.mpr this)
    · rw [if_neg hd]
      obtain ⟨hr0, hrr⟩ := hs (not_lt.mp hd)
      have hroots := fun t => height_eq_cases lidar_to_target_z z0 vz t _ hrr
      have h12 : (vz - sqrt (discriminant lidar_to_target_z z0 vz)) / gravity K ≤
          (vz + sqrt (discriminant lidar_to_target_z z0 vz)) / gravity K := by
        apply div_le_div_of_nonneg_right _ (le_of_lt hg)
        linarith
      by_cases h1 : 0 ≤ (vz - sqrt (discriminant lidar_to_target_z z0 vz)) / gravity K
      · rw [if_pos h1]
        refine ⟨⟨fun h => Option.noConfusion h, fun h => absurd ⟨_, h1, (hroots _).mpr (Or.inl rfl)⟩ h⟩, ?_⟩
        intro r hr
        injection hr with hr
        subst hr
        refine ⟨h1, (hroots _).mpr (Or.inl rfl), ?_, rfl, rfl⟩
        intro t _ ht
        rcases (hroots t).mp ht with h | h
        · exact le_of_eq h.symm
        · rw [h]; exact h12
      · rw [if_neg h1]
        by_cases h2 : 0 ≤ (vz + sqrt (discriminant lidar_to_target_z z0 vz)) / gravity K
        · rw [if_pos h2]
          refine ⟨⟨fun h => Option.noConfusion h, fun h => absurd ⟨_, h2, (hroots _).mpr (Or.inr rfl)⟩ h⟩, ?_⟩
          intro r hr
          injection hr with hr
          subst hr
          refine ⟨h2, (hroots _).mpr (Or.inr rfl), ?_, rfl, rfl⟩
          intro t ht0 ht
          rcases (hroots t).mp ht with h | h
          · rw [h] at ht0; exact absurd ht0 h1
          · exact le_of_eq h.symm
        · rw [if_neg h2]
          refine ⟨⟨fun _ => ?_, fun _ => rfl⟩, fun r hr => by cases hr⟩
          rintro ⟨t, ht0, ht⟩
          rcases (hroots t).mp ht with h | h
          · rw [h] at ht0; exact h1 ht0
          · rw [h] at ht0; exact h2 ht0
  refine ⟨key.1, key.2, ?_⟩
  intro hz hv
  rw [key.1]
  rintro ⟨t, ht0, ht⟩
  unfold height at ht
  have h1 : vz * t ≤ 0 := mul_nonpos_of_nonpos_of_nonneg hv ht0
  have h2 : 0 ≤ 1 / 2 * gravity K * (t * t) := by
    have := mul_self_nonneg t
    positivity
  linarith

theorem rat_sqrt_discriminant :
    Rat.sqrt (discriminant (0 : Rat) (49 / 10) 0) = 49 / 5 := by
  have hd : discriminant (0 : Rat) (49 / 10) 0 = 49 / 5 * (49 / 5) := by
    norm_num [discriminant, gravity]
  rw [hd, Rat.sqrt_eq]
  norm_num [abs_of_pos]

theorem eval_calculate_impact_point :
    calculate_impact_point Rat.sqrt 1 2 0 (49 / 10) 0 0 0 (1 / 2) (1 / 2) =
      some { impact_time := 1, x_impact := 3 / 2, y_impact := 5 / 2 } := by
  unfold calculate_impact_point
  dsimp only
  rw [rat_sqrt_discriminant]
  norm_num [discriminant, gravity]

theorem calculate_impact_point_spec_witness :
    (0 : Rat) ≤ 1 ∧ height (49 / 10 : Rat) 0 1 = 0 ∧
      (∀ t : Rat, 0 ≤ t → height (49 / 10) 0 t = 0 → 1 ≤ t) ∧
      (3 / 2 : Rat) = 0 + 1 / 2 * 1 + 1 ∧ (5 / 2 : Rat) = 0 + 1 / 2 * 1 + 2 :=
  (calculate_impact_point_spec Rat.sqrt 1 2 0 (49 / 10) 0 0 0 (1 / 2) (1 / 2)
    (fun _ => by rw [rat_sqrt_discriminant]; norm_num [discriminant, gravity])).2.1
    { impact_time := 1, x_impact := 3 / 2, y_impact := 5 / 2 } eval_calculate_impact_point

end impact_point_estimator
